import Mathlib

/-!
Verification development for the dual-mode session library in
`src/requestium/requestium.py`.  The Python code is shallowly embedded:
pure helpers become Lean functions, stateful methods become explicit
state-passing functions that additionally emit a trace of the externally
visible effects (engine navigations, cookie writes, capability writes,
sleeps, polls), and fallible code returns `Except PyError`.
-/

deriving instance DecidableEq for Except

namespace Requestium

/-- Exception kinds that the modelled code paths can raise. -/
inductive PyError where
  | indexError
  | keyError
  | typeError
  | attributeError
  | timeoutError
  | valueError (msg : String)
  | webDriverError (msg : String)
  deriving DecidableEq

/-- Locate the first occurrence of the non-empty separator `sep` in `s`:
`some (before, after)` splits around that occurrence, `none` means `sep`
does not occur in `s`. -/
def findSplit (sep : List Char) : List Char → Option (List Char × List Char)
  | [] => none
  | c :: cs =>
    if sep.isPrefixOf (c :: cs) then some ([], (c :: cs).drop sep.length)
    else
      match findSplit sep cs with
      | some (a, b) => some (c :: a, b)
      | none => none

/-- Python `s.split(sep, 1)` for a non-empty separator, on character
lists: either `[s]` (separator absent) or `[before, after]`. -/
def splitOnceChars (sep s : List Char) : List (List Char) :=
  match findSplit sep s with
  | none => [s]
  | some (a, b) => [a, b]

/-- Python `s.split(sep, 1)` for a non-empty separator. -/
def splitOnce (sep s : String) : List String :=
  (splitOnceChars sep.toList s.toList).map String.mk

/-- Python `s.split(sep)` (all occurrences) for a non-empty separator, on
character lists; `fuel` bounds the recursion and any value of at least
`s.length + 1` is exact. -/
def splitAllChars (sep : List Char) (fuel : Nat) (s : List Char) : List (List Char) :=
  match fuel with
  | 0 => [s]
  | Nat.succ f =>
    match findSplit sep s with
    | none => [s]
    | some (a, b) => a :: splitAllChars sep f b

/-- Python `s.split(sep)` for a non-empty separator. -/
def pySplit (sep s : String) : List String :=
  (splitAllChars sep.toList (s.toList.length + 1) s.toList).map String.mk

/-- Python `s[n:]`. -/
def pyDrop (n : Nat) (s : String) : String :=
  String.mk (s.toList.drop n)

/-- Python list indexing `xs[i]`: raises `IndexError` when out of range. -/
def pyIndex {α : Type} (xs : List α) (i : Nat) : Except PyError α :=
  match xs.get? i with
  | some v => Except.ok v
  | none => Except.error PyError.indexError

/-- Body of the `try` block in `Session.get_tld` (line 130 of the source):
`url.split('://', 1)[1].split(':', 1)[0].split('/', 1)[0]`. -/
def get_tld_fallback (url : String) : Except PyError String :=
  match pyIndex (splitOnce "://" url) 1 with
  | Except.error e => Except.error e
  | Except.ok afterScheme =>
    match pyIndex (splitOnce ":" afterScheme) 0 with
    | Except.error e => Except.error e
    | Except.ok beforePort =>
      match pyIndex (splitOnce "/" beforePort) 0 with
      | Except.error e => Except.error e
      | Except.ok beforePath => Except.ok beforePath

/-- `Session.get_tld` (lines 118-133).  `registeredDomain` stands for the
output of the external collaborator `tldextract.extract(url).registered_domain`
(the empty string when no registered domain is extracted).  When the
registered domain is falsy the code tries the scheme-stripping fallback and
catches `IndexError` by returning the input unchanged. -/
def get_tld (registeredDomain : String) (url : String) : Except PyError String :=
  if registeredDomain = "" then
    match get_tld_fallback url with
    | Except.ok host => Except.ok host
    | Except.error PyError.indexError => Except.ok url
    | Except.error e => Except.error e
  else Except.ok registeredDomain

/-- Pure view of `get_tld`, used by callers inside the session.  `rd` is the
`tldextract` registered-domain oracle for each url.  The error branch is
unreachable (see `get_tld_total_spec`). -/
def get_tldStr (rd : String → String) (url : String) : String :=
  match get_tld (rd url) url with
  | Except.ok s => s
  | Except.error _ => url

/-- A cookie as held by the requests cookie jar. -/
structure Cookie where
  name : String
  value : String
  path : String
  expires : Option Int
  domain : String
  deriving DecidableEq

/-- The dict passed to `driver.add_cookie` at lines 109-110 of the source
(note the `expiry := expires` field renaming done there). -/
structure DriverCookie where
  name : String
  value : String
  path : String
  expiry : Option Int
  domain : String
  deriving DecidableEq

/-- Build the `add_cookie` dict from a jar cookie, as at lines 109-110. -/
def toDriverCookie (c : Cookie) : DriverCookie :=
  ⟨c.name, c.value, c.path, c.expires, c.domain⟩

/-- Externally visible webdriver effects issued by `update_driver_cookies`. -/
inductive DriverEvent where
  | driverGet (url : String)
  | addCookie (c : DriverCookie)
  deriving DecidableEq

/-- State of the webdriver as seen by the session. -/
structure Driver where
  currentUrl : String
  cookieStore : List DriverCookie
  deriving DecidableEq

/-- HTTP-side state of the `Session` object that the modelled methods read
and write: the cookie jar and `_last_requests_url`. -/
structure Session where
  cookies : List Cookie
  _last_requests_url : Option String
  deriving DecidableEq

/-- `self.cookies.list_domains()`: the domains of the cookies in the jar. -/
def list_domains (cookies : List Cookie) : List String :=
  cookies.map (fun c => c.domain)

/-- `self.driver.get(url)`: navigate the engine, one `driverGet` event. -/
def driverGet (d : Driver) (url : String) : Driver × List DriverEvent :=
  ({ d with currentUrl := url }, [DriverEvent.driverGet url])

/-- `self.driver.add_cookie(dict)`: one cookie-store write per call. -/
def addCookie (d : Driver) (c : DriverCookie) : Driver × List DriverEvent :=
  ({ d with cookieStore := d.cookieStore ++ [c] }, [DriverEvent.addCookie c])

/-- The `for c in self.cookies: self.driver.add_cookie(...)` loop at
lines 108-110. -/
def transferCookies (d : Driver) (cs : List Cookie) : Driver × List DriverEvent :=
  match cs with
  | [] => (d, [])
  | c :: rest =>
    let step := addCookie d (toDriverCookie c)
    let next := transferCookies step.1 rest
    (next.1, step.2 ++ next.2)

/-- `Session.update_driver_cookies` (lines 88-112).  `rd` is the
`tldextract` oracle.  Returns `none` when both the `url` argument and
`_last_requests_url` are `None` (the source would then crash inside
`get_tld`); otherwise returns the final driver state and the effect trace. -/
def update_driver_cookies (rd : String → String) (s : Session) (d : Driver)
    (urlArg : Option String) : Option (Driver × List DriverEvent) :=
  match (match urlArg with | some u => some u | none => s._last_requests_url) with
  | none => none
  | some url =>
    let driver_tld := get_tldStr rd d.currentUrl
    let new_request_tld := get_tldStr rd url
    let aligned :=
      if ("." ++ new_request_tld) ∈ list_domains s.cookies ∧ driver_tld ≠ new_request_tld
      then driverGet d ("http://" ++ get_tldStr rd url)
      else (d, [])
    let written := transferCookies aligned.1 s.cookies
    let final := driverGet written.1 url
    some (final.1, aligned.2 ++ written.2 ++ final.2)

/-- A raw response from the underlying HTTP client (requests), at the
interface boundary used by this library: its final (post-redirect) url and
its text body. -/
structure HttpResponse where
  url : String
  text : String
  deriving DecidableEq

/-- The parsel `Selector` collaborator, identified by the text it was
constructed from (`Selector(text=...)` at line 226). -/
structure Selector where
  text : String
  deriving DecidableEq

/-- `RequestiumResponse`: wraps one raw response, with the `_selector`
cache initialised to `None` by `__init__` (line 221). -/
structure RequestiumResponse where
  response : HttpResponse
  _selector : Option Selector
  deriving DecidableEq

/-- The HTTP verbs exposed by the session surface. -/
inductive Verb where
  | get
  | post
  | put
  deriving DecidableEq

/-- `Session.get` (lines 196-199): delegate to the base client `base`,
record the response's final url, wrap. -/
def session_get {α : Type} (base : α → HttpResponse) (s : Session) (a : α) :
    Session × RequestiumResponse :=
  let resp := base a
  ({ s with _last_requests_url := some resp.url }, ⟨resp, none⟩)

/-- `Session.post` (lines 201-204). -/
def session_post {α : Type} (base : α → HttpResponse) (s : Session) (a : α) :
    Session × RequestiumResponse :=
  let resp := base a
  ({ s with _last_requests_url := some resp.url }, ⟨resp, none⟩)

/-- `Session.put` (lines 206-209). -/
def session_put {α : Type} (base : α → HttpResponse) (s : Session) (a : α) :
    Session × RequestiumResponse :=
  let resp := base a
  ({ s with _last_requests_url := some resp.url }, ⟨resp, none⟩)

/-- Dispatch over the verb surface, to state the per-verb contract
uniformly. -/
def sessionVerbCall {α : Type} (v : Verb) (base : α → HttpResponse) (s : Session) (a : α) :
    Session × RequestiumResponse :=
  match v with
  | Verb.get => session_get base s a
  | Verb.post => session_post base s a
  | Verb.put => session_put base s a

/-- The four query kinds of `RequestiumResponse`. -/
inductive QOp where
  | xpath (expr : String)
  | css (expr : String)
  | re (expr : String)
  | re_first (expr : String)
  deriving DecidableEq

/-- A query as delegated to the parsel collaborator: which `Selector`
object it ran on and which operation was requested. -/
structure SelectorQuery where
  sel : Selector
  op : QOp
  deriving DecidableEq

/-- The `selector` property (lines 223-227): build the `Selector` from the
response body on first access, cache it, and reuse it afterwards.  The
`Nat` component counts how many `Selector` constructions (body parses)
this access performed. -/
def selectorProp (r : RequestiumResponse) : RequestiumResponse × Selector × Nat :=
  match r._selector with
  | none =>
    let s : Selector := ⟨r.response.text⟩
    ({ r with _selector := some s }, s, 1)
  | some s => (r, s, 0)

/-- One of `xpath`/`css`/`re`/`re_first` (lines 229-239): go through the
`selector` property and delegate the operation to the obtained object. -/
def runQuery (r : RequestiumResponse) (op : QOp) :
    RequestiumResponse × SelectorQuery × Nat :=
  let acc := selectorProp r
  (acc.1, ⟨acc.2.1, op⟩, acc.2.2)

/-- A sequence of query calls on the same response instance, threading the
instance state; returns the delegated queries and the total number of body
parses performed. -/
def runQueries (r : RequestiumResponse) (ops : List QOp) :
    RequestiumResponse × List SelectorQuery × Nat :=
  match ops with
  | [] => (r, [], 0)
  | op :: rest =>
    let first := runQuery r op
    let next := runQueries first.1 rest
    (next.1, first.2.1 :: next.2.1, first.2.2 + next.2.2)

/-- The message of the `WebDriverException` raised at lines 260-262 after
the retry loop is exhausted, formatted from the last engine failure's
message. -/
def clickFailedMessage (lastMsg : String) : String :=
  "Couldn\x27t click item after trying 5 times, got error message: \n" ++ lastMsg

/-- The retry loop of `_ensure_click` (lines 254-262).  `click i` is the
outcome of the i-th (0-based) `self.click()` attempt: `none` on success,
`some msg` for a `WebDriverException` with message `msg`.  `fuel` is the
number of loop iterations left, `last` the message of the most recent
failure (the Python 2 `e` still bound after the loop).  The `Nat` result
counts the `time.sleep(0.2)` calls performed. -/
def ensureClickGo (click : Nat → Option String) (fuel i : Nat) (last : Option String) :
    Except PyError Unit × Nat :=
  match fuel with
  | 0 => (Except.error (PyError.webDriverError (clickFailedMessage (last.getD ""))), 0)
  | Nat.succ f =>
    match click i with
    | none => (Except.ok (), 0)
    | some msg =>
      let rest := ensureClickGo click f (i + 1) (some msg)
      (rest.1, rest.2 + 1)

/-- `_ensure_click`: `for _ in range(5)` with the loop body above. -/
def ensure_click (click : Nat → Option String) : Except PyError Unit × Nat :=
  ensureClickGo click 5 0 none

/-- The three recognised wait conditions of `__ensure_element_by_xpath`,
mapped to the selenium `expected_conditions` predicates used at
lines 167-178. -/
inductive Predicate where
  | presence
  | visibility
  | clickable
  deriving DecidableEq

/-- Observable effects of `__ensure_element_by_xpath`: a `WebDriverWait`
poll with a given predicate, window and xpath selector, and the
scroll-into-view touch at line 188. -/
inductive EnsureEvent where
  | poll (pred : Predicate) (timeout : Nat) (selector : String)
  | scrollIntoView
  deriving DecidableEq

/-- Line 165: `if not timeout: timeout = self.default_timeout`.  The
`timeout` argument defaults to `None`; Python's truthiness test also
treats a supplied `0` as falsy. -/
def effectiveTimeout (timeout : Option Nat) (default_timeout : Nat) : Nat :=
  if timeout = none ∨ timeout = some 0 then default_timeout
  else timeout.getD default_timeout

/-- `Session.__ensure_element_by_xpath` (lines 135-194).  `wait p t sel`
is the outcome of `WebDriverWait(driver, t).until(pred)`: `some elem` when
an element satisfying predicate `p` appeared within `t` seconds, `none`
for a selenium timeout.  Returns the located element (or the raised
error) together with the effect trace. -/
def ensure_element_by_xpath (wait : Predicate → Nat → String → Option Unit)
    (default_timeout : Nat) (selector : String) (criterium : String)
    (timeout : Option Nat) : Except PyError Unit × List EnsureEvent :=
  let t := effectiveTimeout timeout default_timeout
  let poll : Predicate → Except PyError Unit × List EnsureEvent := fun p =>
    match wait p t selector with
    | some e => (Except.ok e, [EnsureEvent.poll p t selector, EnsureEvent.scrollIntoView])
    | none => (Except.error PyError.timeoutError, [EnsureEvent.poll p t selector])
  if criterium = "visibility" then poll Predicate.visibility
  else if criterium = "clickable" then poll Predicate.clickable
  else if criterium = "presence" then poll Predicate.presence
  else
    (Except.error (PyError.valueError
      ("The \x27criterium\x27 argument must be \x27visibility\x27, \x27clickable\x27 or \x27presence\x27, not \x27" ++ criterium ++ "\x27")), [])

/-- The predicates polled during a call, extracted from its trace. -/
def polledPreds (events : List EnsureEvent) : List Predicate :=
  events.filterMap (fun e =>
    match e with
    | EnsureEvent.poll p _ _ => some p
    | EnsureEvent.scrollIntoView => none)

/-- Externally visible effects of the two browser start routines: writes
into the phantomjs `DesiredCapabilities` header map, reads of the session
`proxies` dict, accumulated `service_args`/chrome options, and the final
engine process creation. -/
inductive StartEvent where
  | setHeaderCapability (key value : String)
  | readProxy (key : String)
  | serviceArg (arg : String)
  | chromeOption (opt : String)
  | createDriver (kind : String)
  deriving DecidableEq

/-- The header-transfer loop of `Session._start_phantomjs_browser`
(lines 52-57): one `DesiredCapabilities` write per session header, with
`Accept-Encoding` skipped (line 54). -/
def phantomjsHeaderEvents (headers : List (String × String)) : List StartEvent :=
  (headers.filter (fun kv => kv.1 ≠ "Accept-Encoding")).map
    (fun kv => StartEvent.setHeaderCapability kv.1 kv.2)

/-- The rest of `Session._start_phantomjs_browser` (lines 59-73): browser
options, the proxy block, and the process creation. -/
def phantomjsProxyAndCreate (proxies : List (String × String)) :
    Except PyError Unit × List StartEvent :=
  let baseArgs := [StartEvent.serviceArg "--load-images=no", StartEvent.serviceArg "--disk-cache=true"]
  if proxies.isEmpty then
    (Except.ok (), baseArgs ++ [StartEvent.createDriver "phantomjs"])
  else
    match proxies.lookup "https" with
    | none => (Except.error PyError.keyError, baseArgs ++ [StartEvent.readProxy "https"])
    | some httpsVal =>
      let readEvents := StartEvent.readProxy "https" ::
        (if httpsVal = "" then [StartEvent.readProxy "http"] else [])
      let chosen : Except PyError String :=
        if httpsVal ≠ "" then Except.ok httpsVal
        else
          match proxies.lookup "http" with
          | some v => Except.ok v
          | none => Except.error PyError.keyError
      match chosen with
      | Except.error e => (Except.error e, baseArgs ++ readEvents)
      | Except.ok sessionProxy =>
        let parts := pySplit "@" sessionProxy
        let proxyUserAndPass := pyDrop 7 (parts.headD "")
        match parts.get? 1 with
        | none => (Except.error PyError.indexError, baseArgs ++ readEvents)
        | some proxyIpAddress =>
          (Except.ok (), baseArgs ++ readEvents ++
            [StartEvent.serviceArg ("--proxy=" ++ proxyIpAddress),
             StartEvent.serviceArg ("--proxy-auth=" ++ proxyUserAndPass),
             StartEvent.createDriver "phantomjs"])

/-- `Session._start_phantomjs_browser` (lines 50-73): the header loop of
lines 52-57 runs first, then options, proxy parsing and creation. -/
def start_phantomjs_browser (headers proxies : List (String × String)) :
    Except PyError Unit × List StartEvent :=
  let rest := phantomjsProxyAndCreate proxies
  (rest.1, phantomjsHeaderEvents headers ++ rest.2)

/-- `Session._start_chrome_browser` (lines 75-86): sets one chrome option
and creates the process; transfers neither headers nor proxies (the TODO
at line 76). -/
def start_chrome_browser (_headers _proxies : List (String × String)) :
    Except PyError Unit × List StartEvent :=
  (Except.ok (), [StartEvent.chromeOption "disable-infobars", StartEvent.createDriver "chrome"])

/-- The `driver` property (lines 34-48).  `existing` is `self._driver`.
When a driver already exists nothing is started.  On first access the
phantomjs branch calls `self._start_phantomjs_browser()` without the
required positional argument `webdriver_path` that the def at line 50
declares, so Python raises `TypeError` before the routine body runs; an
unrecognised browser kind raises `AttributeError`. -/
def driverAcquire (existing : Option Unit) (browser : String)
    (headers proxies : List (String × String)) : Except PyError Unit × List StartEvent :=
  match existing with
  | some _ => (Except.ok (), [])
  | none =>
    if browser = "phantomjs" then (Except.error PyError.typeError, [])
    else if browser = "chrome" then start_chrome_browser headers proxies
    else (Except.error PyError.attributeError, [])

theorem splitOnce_cons (sep s : String) : ∃ x xs, splitOnce sep s = x :: xs := by
  unfold splitOnce splitOnceChars
  rcases h : findSplit sep.toList s.toList with _ | ⟨a, b⟩ <;> simp [h]

theorem get_tld_fallback_ok_or_index (url : String) :
    (∃ h, get_tld_fallback url = Except.ok h) ∨
      get_tld_fallback url = Except.error PyError.indexError := by
  rcases h1 : (splitOnce "://" url)[1]? with _ | rest
  · right
    simp [get_tld_fallback, pyIndex, h1]
  · obtain ⟨a, as, ha⟩ := splitOnce_cons ":" rest
    obtain ⟨b, bs, hb⟩ := splitOnce_cons "/" a
    left
    exact ⟨b, by simp [get_tld_fallback, pyIndex, h1, ha, hb]⟩

/-- C7: `get_tld` lets no exception escape and always returns a string:
the registered domain when `tldextract` extracts one; otherwise, when the
scheme separator is present, the bare host obtained by stripping the
scheme and trimming at the first `:` and the first `/`; and when the
scheme separator is absent, the input unchanged. -/
theorem get_tld_total_spec (rdom url : String) :
    (∃ s, get_tld rdom url = Except.ok s) ∧
    (rdom ≠ "" → get_tld rdom url = Except.ok rdom) ∧
    (rdom = "" → splitOnce "://" url = [url] → get_tld rdom url = Except.ok url) ∧
    (∀ scheme rest, rdom = "" → splitOnce "://" url = [scheme, rest] →
      get_tld rdom url =
        Except.ok ((splitOnce "/" ((splitOnce ":" rest).headD rest)).headD rest)) := by
  refine ⟨?_, ?_, ?_, ?_⟩
  · by_cases h : rdom = ""
    · rcases get_tld_fallback_ok_or_index url with ⟨v, hv⟩ | hv
      · exact ⟨v, by simp [get_tld, h, hv]⟩
      · exact ⟨url, by simp [get_tld, h, hv]⟩
    · exact ⟨rdom, by simp [get_tld, h]⟩
  · intro h
    simp [get_tld, h]
  · intro h hs
    simp [get_tld, h, get_tld_fallback, pyIndex, hs]
  · intro scheme rest h hs
    obtain ⟨a, as, ha⟩ := splitOnce_cons ":" rest
    obtain ⟨b, bs, hb⟩ := splitOnce_cons "/" a
    simp [get_tld, h, get_tld_fallback, pyIndex, hs, ha, hb]

/-- Witness for `get_tld_total_spec`: a registered domain is returned as
is; a structurally invalid string comes back unchanged; a bare IP with
port and path yields only the host portion. -/
theorem get_tld_total_spec_witness :
    get_tld "example.com" "http://www.example.com/z" = Except.ok "example.com" ∧
    get_tld "" "not a url" = Except.ok "not a url" ∧
    get_tld "" "http://10.0.0.1:8080/x/y" = Except.ok "10.0.0.1" := by
  refine ⟨?_, ?_, ?_⟩
  · exact (get_tld_total_spec "example.com" "http://www.example.com/z").2.1 (by decide)
  · exact (get_tld_total_spec "" "not a url").2.2.1 rfl (by decide)
  · have h := (get_tld_total_spec "" "http://10.0.0.1:8080/x/y").2.2.2
      "http" "10.0.0.1:8080/x/y" rfl (by decide)
    rw [h]
    decide

theorem transferCookies_trace (d : Driver) (cs : List Cookie) :
    (transferCookies d cs).2 = cs.map (fun c => DriverEvent.addCookie (toDriverCookie c)) := by
  induction cs generalizing d with
  | nil => rfl
  | cons c rest ih => simp [transferCookies, addCookie, ih]

theorem transferCookies_state (d : Driver) (cs : List Cookie) :
    (transferCookies d cs).1 =
      ⟨d.currentUrl, d.cookieStore ++ cs.map toDriverCookie⟩ := by
  induction cs generalizing d with
  | nil => simp [transferCookies]
  | cons c rest ih => simp [transferCookies, addCookie, ih]

/-- C1: with the target url `u` resolved (either supplied, or defaulted to
`_last_requests_url` when the argument is omitted), `update_driver_cookies`
first navigates the engine to `u`'s registered domain exactly when the
jar's listed domains contain `'.'` followed by `u`'s registered domain and
the engine's current registered domain differs from it; then writes every
jar cookie into the engine's store as an individual entry, in jar order;
and finally navigates the engine to `u`. -/
theorem update_driver_cookies_trace_spec (rd : String → String) (s : Session) (d : Driver)
    (urlArg : Option String) (url : String)
    (hurl : urlArg = some url ∨ (urlArg = none ∧ s._last_requests_url = some url)) :
    update_driver_cookies rd s d urlArg =
      some (⟨url, d.cookieStore ++ s.cookies.map toDriverCookie⟩,
        (if ("." ++ get_tldStr rd url) ∈ list_domains s.cookies ∧
            get_tldStr rd d.currentUrl ≠ get_tldStr rd url
          then [DriverEvent.driverGet ("http://" ++ get_tldStr rd url)]
          else [])
        ++ s.cookies.map (fun c => DriverEvent.addCookie (toDriverCookie c))
        ++ [DriverEvent.driverGet url]) := by
  rcases hurl with h | ⟨h1, h2⟩
  · subst h
    by_cases hc : ("." ++ get_tldStr rd url) ∈ list_domains s.cookies ∧
        get_tldStr rd d.currentUrl ≠ get_tldStr rd url
    · simp [update_driver_cookies, hc, driverGet, transferCookies_trace, transferCookies_state]
    · simp [update_driver_cookies, hc, driverGet, transferCookies_trace, transferCookies_state]
  · subst h1
    by_cases hc : ("." ++ get_tldStr rd url) ∈ list_domains s.cookies ∧
        get_tldStr rd d.currentUrl ≠ get_tldStr rd url
    · simp [update_driver_cookies, h2, hc, driverGet, transferCookies_trace, transferCookies_state]
    · simp [update_driver_cookies, h2, hc, driverGet, transferCookies_trace, transferCookies_state]

/-- Witness for `update_driver_cookies_trace_spec`: a jar with one cookie
for `.example.com`, an engine sitting at `about:blank`, and an omitted
target url defaulting to the last-fetched `http://example.com/login`; the
engine aligns to the domain, receives the cookie, then navigates to the
target. -/
theorem update_driver_cookies_trace_spec_witness :
    update_driver_cookies
      (fun u => if u = "http://example.com/login" ∨ u = "http://example.com" then "example.com" else "")
      ⟨[⟨"sid", "1", "/", none, ".example.com"⟩], some "http://example.com/login"⟩
      ⟨"about:blank", []⟩ none =
      some (⟨"http://example.com/login", [⟨"sid", "1", "/", none, ".example.com"⟩]⟩,
        [DriverEvent.driverGet "http://example.com",
         DriverEvent.addCookie ⟨"sid", "1", "/", none, ".example.com"⟩,
         DriverEvent.driverGet "http://example.com/login"]) := by
  have h := update_driver_cookies_trace_spec
    (fun u => if u = "http://example.com/login" ∨ u = "http://example.com" then "example.com" else "")
    ⟨[⟨"sid", "1", "/", none, ".example.com"⟩], some "http://example.com/login"⟩
    ⟨"about:blank", []⟩ none "http://example.com/login" (Or.inr ⟨rfl, rfl⟩)
  rw [h]
  decide

/-- C2: every HTTP verb operation on the session surface, uniformly,
delegates to the underlying client, records the response's final url as
`_last_requests_url`, and returns the raw response wrapped in a fresh
`RequestiumResponse` (with an empty selector cache). -/
theorem verb_operations_wrap_and_track {α : Type} (v : Verb) (base : α → HttpResponse)
    (s : Session) (a : α) :
    (sessionVerbCall v base s a).1._last_requests_url = some (base a).url ∧
    (sessionVerbCall v base s a).2 = ⟨base a, none⟩ := by
  cases v <;> exact ⟨rfl, rfl⟩

theorem runQueries_cached (resp : HttpResponse) (sel : Selector) (ops : List QOp) :
    runQueries ⟨resp, some sel⟩ ops =
      (⟨resp, some sel⟩, ops.map (fun op => SelectorQuery.mk sel op), 0) := by
  induction ops with
  | nil => rfl
  | cons op rest ih => simp [runQueries, runQuery, selectorProp, ih]

/-- C8: on a freshly wrapped response, any sequence of query calls builds
the document-query object at most once — exactly once when at least one
query is made — reuses the identical object (built from the response's
text body) for every query, and never rebuilds it. -/
theorem selector_cached_once (resp : HttpResponse) (ops : List QOp) :
    (runQueries ⟨resp, none⟩ ops).2.2 = (if ops.isEmpty then 0 else 1) ∧
    (runQueries ⟨resp, none⟩ ops).2.1 =
      ops.map (fun op => SelectorQuery.mk ⟨resp.text⟩ op) ∧
    (runQueries ⟨resp, none⟩ ops).1 =
      ⟨resp, if ops.isEmpty then none else some ⟨resp.text⟩⟩ := by
  cases ops with
  | nil => exact ⟨rfl, rfl, rfl⟩
  | cons op rest =>
    refine ⟨?_, ?_, ?_⟩ <;>
      simp [runQueries, runQuery, selectorProp, runQueries_cached]

theorem ensureClickGo_succ (click : Nat → Option String) (fuel i : Nat) (last : Option String) :
    ensureClickGo click (fuel + 1) i last =
      match click i with
      | none => (Except.ok (), 0)
      | some msg =>
        ((ensureClickGo click fuel (i + 1) (some msg)).1,
          (ensureClickGo click fuel (i + 1) (some msg)).2 + 1) := rfl

theorem ensureClickGo_ok_of_success (click : Nat → Option String) :
    ∀ (fuel i : Nat) (last : Option String),
      (∃ k, k < fuel ∧ click (i + k) = none) →
      (ensureClickGo click fuel i last).1 = Except.ok () := by
  intro fuel
  induction fuel with
  | zero =>
    intro i last h
    obtain ⟨k, hk, _⟩ := h
    exact absurd hk (Nat.not_lt_zero k)
  | succ f ih =>
    intro i last h
    obtain ⟨k, hk, hkn⟩ := h
    cases hcl : click i with
    | none => simp [ensureClickGo, hcl]
    | some msg =>
      have hk0 : k ≠ 0 := by
        intro h0
        subst h0
        rw [Nat.add_zero] at hkn
        rw [hkn] at hcl
        exact Option.noConfusion hcl
      have hrec : (ensureClickGo click f (i + 1) (some msg)).1 = Except.ok () := by
        apply ih
        refine ⟨k - 1, by omega, ?_⟩
        have heq : (i + 1) + (k - 1) = i + k := by omega
        rw [heq]
        exact hkn
      simp [ensureClickGo, hcl, hrec]

theorem ensureClickGo_all_fail (click : Nat → Option String) :
    ∀ (fuel i : Nat) (last : Option String), 0 < fuel →
      (∀ j, j < fuel → (click (i + j)).isSome) →
      ensureClickGo click fuel i last =
        (Except.error (PyError.webDriverError
          (clickFailedMessage ((click (i + (fuel - 1))).getD ""))), fuel) := by
  intro fuel
  induction fuel with
  | zero =>
    intro i last h
    exact absurd h (Nat.lt_irrefl 0)
  | succ f ih =>
    intro i last _ hall
    have h0 : (click i).isSome := by simpa using hall 0 (Nat.succ_pos f)
    obtain ⟨msg, hmsg⟩ := Option.isSome_iff_exists.mp h0
    cases f with
    | zero => simp [ensureClickGo, hmsg]
    | succ f2 =>
      have hrec := ih (i + 1) (some msg) (Nat.succ_pos f2) (fun j hj => by
        have hj1 := hall (j + 1) (by omega)
        have heq : i + (j + 1) = (i + 1) + j := by omega
        rw [heq] at hj1
        exact hj1)
      have hidx : (i + 1) + (f2 + 1 - 1) = i + (f2 + 1 + 1 - 1) := by omega
      rw [hidx] at hrec
      rw [ensureClickGo_succ, hmsg]
      dsimp only
      rw [hrec]

theorem ensureClickGo_sleeps_first_success (click : Nat → Option String) :
    ∀ (fuel i : Nat) (last : Option String) (k : Nat), k < fuel →
      click (i + k) = none → (∀ j, j < k → (click (i + j)).isSome) →
      (ensureClickGo click fuel i last).2 = k := by
  intro fuel
  induction fuel with
  | zero =>
    intro i last k hk
    exact absurd hk (Nat.not_lt_zero k)
  | succ f ih =>
    intro i last k hk hkn hbefore
    cases k with
    | zero =>
      rw [Nat.add_zero] at hkn
      simp [ensureClickGo, hkn]
    | succ k2 =>
      have h0 : (click i).isSome := by simpa using hbefore 0 (Nat.succ_pos k2)
      obtain ⟨msg, hmsg⟩ := Option.isSome_iff_exists.mp h0
      have hrec := ih (i + 1) (some msg) k2 (by omega)
        (by
          have heq : (i + 1) + k2 = i + (k2 + 1) := by omega
          rw [heq]
          exact hkn)
        (fun j hj => by
          have hj1 := hbefore (j + 1) (by omega)
          have heq : i + (j + 1) = (i + 1) + j := by omega
          rw [heq] at hj1
          exact hj1)
      simp [ensureClickGo, hmsg, hrec]

/-- C3: the retrying click tries the underlying click up to 5 times; if
any attempt up to the 5th succeeds the call returns success without
raising, and if all 5 attempts fail it raises a `WebDriverException`
whose message carries the message of the last underlying failure. -/
theorem ensure_click_retry_spec (click : Nat → Option String) :
    ((∃ k, k < 5 ∧ click k = none) → (ensure_click click).1 = Except.ok ()) ∧
    ((∀ j, j < 5 → (click j).isSome) →
      (ensure_click click).1 =
        Except.error (PyError.webDriverError (clickFailedMessage ((click 4).getD "")))) := by
  constructor
  · intro h
    obtain ⟨k, hk, hkn⟩ := h
    exact ensureClickGo_ok_of_success click 5 0 none ⟨k, hk, by simpa using hkn⟩
  · intro hall
    have h := ensureClickGo_all_fail click 5 0 none (by omega)
      (fun j hj => by simpa using hall j hj)
    simp [ensure_click, h]

/-- Witness for `ensure_click_retry_spec`: a click that succeeds on the
3rd attempt returns success; a click that always fails with message
`boom` raises with that message reported. -/
theorem ensure_click_retry_spec_witness :
    (ensure_click (fun i => if i = 2 then none else some "x")).1 = Except.ok () ∧
    (ensure_click (fun _ => some "boom")).1 =
      Except.error (PyError.webDriverError (clickFailedMessage "boom")) := by
  constructor
  · exact (ensure_click_retry_spec (fun i => if i = 2 then none else some "x")).1
      ⟨2, by decide, by decide⟩
  · exact (ensure_click_retry_spec (fun _ => some "boom")).2 (by decide)

/-- C4 counterexample: when all 5 attempts fail the code performs one
`time.sleep(0.2)` after every failed attempt, including the 5th and last,
so there are 5 sleeps (≈1.0s), not the 4 inter-attempt sleeps (≈0.8s)
that the claim states. -/
theorem ensure_click_sleep_count_counterexample :
    (ensure_click (fun _ => some "boom")).2 = 5 ∧
    (ensure_click (fun _ => some "boom")).2 ≠ 4 := by
  exact ⟨by decide, by decide⟩

/-- C4 (amended): when the underlying click succeeds on attempt `k+1`
(0-based index `k`), the retrying click performs exactly `k` sleeps of
0.2 seconds; when all 5 attempts fail it performs exactly 5 sleeps — one
after each failure, including the last — before raising, for a total
elapsed sleep time of approximately 1.0 second. -/
theorem ensure_click_sleep_count_spec (click : Nat → Option String) :
    (∀ k, k < 5 → click k = none → (∀ j, j < k → (click j).isSome) →
      (ensure_click click).2 = k) ∧
    ((∀ j, j < 5 → (click j).isSome) → (ensure_click click).2 = 5) := by
  constructor
  · intro k hk hkn hb
    exact ensureClickGo_sleeps_first_success click 5 0 none k hk (by simpa using hkn)
      (fun j hj => by simpa using hb j hj)
  · intro hall
    have h := ensureClickGo_all_fail click 5 0 none (by omega)
      (fun j hj => by simpa using hall j hj)
    simp [ensure_click, h]

/-- Witness for `ensure_click_sleep_count_spec`: success on the 3rd
attempt gives 2 sleeps; total failure gives 5 sleeps. -/
theorem ensure_click_sleep_count_spec_witness :
    (ensure_click (fun i => if i = 2 then none else some "x")).2 = 2 ∧
    (ensure_click (fun _ => some "nope")).2 = 5 := by
  constructor
  · exact (ensure_click_sleep_count_spec (fun i => if i = 2 then none else some "x")).1
      2 (by decide) (by decide) (by decide)
  · exact (ensure_click_sleep_count_spec (fun _ => some "nope")).2 (by decide)

/-- C5: a `criterium` outside the three recognised values makes
`__ensure_element_by_xpath` raise a `ValueError` immediately, with an
empty effect trace (no poll of the document, no scroll, no other side
effect); each recognised value polls exactly its own predicate —
`visibility`, `clickable` and `presence` respectively. -/
theorem ensure_element_criterium_spec (wait : Predicate → Nat → String → Option Unit)
    (default_timeout : Nat) (selector : String) (timeout : Option Nat) :
    (∀ criterium, criterium ≠ "visibility" → criterium ≠ "clickable" → criterium ≠ "presence" →
      ensure_element_by_xpath wait default_timeout selector criterium timeout =
        (Except.error (PyError.valueError
          ("The \x27criterium\x27 argument must be \x27visibility\x27, \x27clickable\x27 or \x27presence\x27, not \x27"
            ++ criterium ++ "\x27")), [])) ∧
    polledPreds (ensure_element_by_xpath wait default_timeout selector "visibility" timeout).2 =
      [Predicate.visibility] ∧
    polledPreds (ensure_element_by_xpath wait default_timeout selector "clickable" timeout).2 =
      [Predicate.clickable] ∧
    polledPreds (ensure_element_by_xpath wait default_timeout selector "presence" timeout).2 =
      [Predicate.presence] := by
  refine ⟨?_, ?_, ?_, ?_⟩
  · intro c h1 h2 h3
    simp [ensure_element_by_xpath, h1, h2, h3]
  · cases h : wait Predicate.visibility (effectiveTimeout timeout default_timeout) selector <;>
      simp [ensure_element_by_xpath, polledPreds, h]
  · cases h : wait Predicate.clickable (effectiveTimeout timeout default_timeout) selector <;>
      simp [ensure_element_by_xpath, polledPreds, h]
  · cases h : wait Predicate.presence (effectiveTimeout timeout default_timeout) selector <;>
      simp [ensure_element_by_xpath, polledPreds, h]

/-- Witness for `ensure_element_criterium_spec`: the unrecognised
criterium `bogus` raises immediately and nothing is polled. -/
theorem ensure_element_criterium_spec_witness :
    ensure_element_by_xpath (fun _ _ _ => some ()) 5 "//a" "bogus" none =
      (Except.error (PyError.valueError
        ("The \x27criterium\x27 argument must be \x27visibility\x27, \x27clickable\x27 or \x27presence\x27, not \x27"
          ++ "bogus" ++ "\x27")), []) := by
  exact (ensure_element_criterium_spec (fun _ _ _ => some ()) 5 "//a" none).1 "bogus"
    (by decide) (by decide) (by decide)

/-- C9: line 165 substitutes the session default whenever the supplied
timeout is falsy, not only when it is omitted: a caller-supplied timeout
of 0 is silently replaced by `default_timeout` (so a zero-second wait
cannot be requested), `None` gets the default, and any non-zero value is
kept; consequently a call with timeout 0 behaves identically to a call
with the timeout omitted. -/
theorem timeout_falsy_default_spec (wait : Predicate → Nat → String → Option Unit)
    (default_timeout : Nat) (selector criterium : String) :
    effectiveTimeout (some 0) default_timeout = default_timeout ∧
    effectiveTimeout none default_timeout = default_timeout ∧
    (∀ v, v ≠ 0 → effectiveTimeout (some v) default_timeout = v) ∧
    ensure_element_by_xpath wait default_timeout selector criterium (some 0) =
      ensure_element_by_xpath wait default_timeout selector criterium none := by
  refine ⟨by simp [effectiveTimeout], by simp [effectiveTimeout], ?_, ?_⟩
  · intro v hv
    simp [effectiveTimeout, hv]
  · have h : effectiveTimeout (some 0) default_timeout =
        effectiveTimeout none default_timeout := by
      simp [effectiveTimeout]
    unfold ensure_element_by_xpath
    rw [h]

/-- Witness for `timeout_falsy_default_spec`: with a default of 5, a
supplied timeout of 0 becomes 5 while a supplied timeout of 7 is kept. -/
theorem timeout_falsy_default_spec_witness :
    effectiveTimeout (some 0) 5 = 5 ∧ effectiveTimeout (some 7) 5 = 7 := by
  constructor
  · exact (timeout_falsy_default_spec (fun _ _ _ => none) 5 "//a" "presence").1
  · exact (timeout_falsy_default_spec (fun _ _ _ => none) 5 "//a" "presence").2.2.1 7 (by decide)

theorem isEmpty_false_of_ne_nil {α : Type} {l : List α} (h : l ≠ []) : l.isEmpty = false := by
  cases l with
  | nil => exact absurd rfl h
  | cons a t => rfl

theorem ne_nil_of_lookup_some {l : List (String × String)} {k v : String}
    (h : l.lookup k = some v) : l ≠ [] := by
  intro he
  subst he
  simp [List.lookup] at h

theorem phantomjsProxyAndCreate_no_header (proxies : List (String × String)) (k v : String) :
    StartEvent.setHeaderCapability k v ∉ (phantomjsProxyAndCreate proxies).2 := by
  unfold phantomjsProxyAndCreate
  by_cases hp : proxies.isEmpty
  · simp [hp]
  · rcases hl : proxies.lookup "https" with _ | hv
    · simp [hp, hl]
    · by_cases hv0 : hv = ""
      · rcases hh : proxies.lookup "http" with _ | v2
        · simp [hp, hl, hv0, hh]
        · rcases hs : (pySplit "@" v2)[1]? with _ | addr
          · simp [hp, hl, hv0, hh, hs, List.get?_eq_getElem?]
          · simp [hp, hl, hv0, hh, hs, List.get?_eq_getElem?]
      · rcases hs : (pySplit "@" hv)[1]? with _ | addr
        · simp [hp, hl, hv0, hs, List.get?_eq_getElem?]
        · simp [hp, hl, hv0, hs, List.get?_eq_getElem?]

/-- C6 counterexample: the claim covers both recognised engine kinds, but
with a non-empty session header mapping a first-time chrome start
transfers nothing: the header write the claim requires never appears in
the chrome startup trace. -/
theorem chrome_header_transfer_counterexample :
    (start_chrome_browser [("User-Agent", "test-agent")] []).1 = Except.ok () ∧
    StartEvent.setHeaderCapability "User-Agent" "test-agent" ∉
      (start_chrome_browser [("User-Agent", "test-agent")] []).2 := by
  exact ⟨rfl, by decide⟩

/-- C6 (amended): header and proxy transfer are implemented only in the
phantomjs start routine: it copies every session header except the single
excluded `Accept-Encoding` entry into the engine's startup configuration
(and never copies `Accept-Encoding`), and, when a usable proxy entry with
an `@` separator is configured, passes its `host:port` part to `--proxy`
and its `user:pass` part (the text after the fixed 7-character scheme
prefix) to `--proxy-auth`; the chrome start routine transfers neither
headers nor proxies; and no transfer happens at all when the driver
already exists. -/
theorem first_start_transfer_spec (headers proxies : List (String × String)) :
    (∀ k v, (k, v) ∈ headers → k ≠ "Accept-Encoding" →
      StartEvent.setHeaderCapability k v ∈ (start_phantomjs_browser headers proxies).2) ∧
    (∀ v, StartEvent.setHeaderCapability "Accept-Encoding" v ∉
      (start_phantomjs_browser headers proxies).2) ∧
    (∀ v auth addr, proxies.lookup "https" = some v → v ≠ "" →
      pySplit "@" v = [auth, addr] →
      StartEvent.serviceArg ("--proxy=" ++ addr) ∈ (start_phantomjs_browser headers proxies).2 ∧
      StartEvent.serviceArg ("--proxy-auth=" ++ pyDrop 7 auth) ∈
        (start_phantomjs_browser headers proxies).2) ∧
    (start_chrome_browser headers proxies).2 =
      [StartEvent.chromeOption "disable-infobars", StartEvent.createDriver "chrome"] ∧
    (∀ browser, driverAcquire (some ()) browser headers proxies = (Except.ok (), [])) := by
  refine ⟨?_, ?_, ?_, rfl, fun _ => rfl⟩
  · intro k v hmem hk
    show _ ∈ phantomjsHeaderEvents headers ++ (phantomjsProxyAndCreate proxies).2
    apply List.mem_append_left
    simp only [phantomjsHeaderEvents, List.mem_map, List.mem_filter]
    exact ⟨(k, v), ⟨hmem, by simp [hk]⟩, rfl⟩
  · intro v hmem
    rcases List.mem_append.mp hmem with hA | hB
    · simp [phantomjsHeaderEvents, List.mem_map, List.mem_filter] at hA
    · exact phantomjsProxyAndCreate_no_header proxies "Accept-Encoding" v hB
  · intro v auth addr hl hne hsplit
    have hp : proxies.isEmpty = false := isEmpty_false_of_ne_nil (ne_nil_of_lookup_some hl)
    have hget : (pySplit "@" v)[1]? = some addr := by rw [hsplit]; rfl
    have hhead : (pySplit "@" v).headD "" = auth := by rw [hsplit]; rfl
    constructor
    · show _ ∈ phantomjsHeaderEvents headers ++ (phantomjsProxyAndCreate proxies).2
      apply List.mem_append_right
      unfold phantomjsProxyAndCreate
      simp [hp, hl, hne, hget, hhead, hsplit, List.get?_eq_getElem?]
    · show _ ∈ phantomjsHeaderEvents headers ++ (phantomjsProxyAndCreate proxies).2
      apply List.mem_append_right
      unfold phantomjsProxyAndCreate
      simp [hp, hl, hne, hget, hhead, hsplit, List.get?_eq_getElem?]

/-- Witness for `first_start_transfer_spec`: with one plain header, an
`Accept-Encoding` header and an authenticated https proxy, phantomjs
start transfers the plain header and both proxy parts. -/
theorem first_start_transfer_spec_witness :
    StartEvent.setHeaderCapability "User-Agent" "ua" ∈
      (start_phantomjs_browser [("User-Agent", "ua"), ("Accept-Encoding", "gzip")]
        [("https", "http://u:p@h:80")]).2 ∧
    StartEvent.serviceArg "--proxy=h:80" ∈
      (start_phantomjs_browser [("User-Agent", "ua"), ("Accept-Encoding", "gzip")]
        [("https", "http://u:p@h:80")]).2 ∧
    StartEvent.serviceArg "--proxy-auth=u:p" ∈
      (start_phantomjs_browser [("User-Agent", "ua"), ("Accept-Encoding", "gzip")]
        [("https", "http://u:p@h:80")]).2 := by
  have h := first_start_transfer_spec [("User-Agent", "ua"), ("Accept-Encoding", "gzip")]
    [("https", "http://u:p@h:80")]
  refine ⟨h.1 "User-Agent" "ua" (by decide) (by decide), ?_, ?_⟩
  · have hm := (h.2.2.1 "http://u:p@h:80" "http://u:p" "h:80" (by decide) (by decide) (by decide)).1
    have he : "--proxy=" ++ "h:80" = "--proxy=h:80" := by decide
    rw [he] at hm
    exact hm
  · have hm := (h.2.2.1 "http://u:p@h:80" "http://u:p" "h:80" (by decide) (by decide) (by decide)).2
    have he : "--proxy-auth=" ++ pyDrop 7 "http://u:p" = "--proxy-auth=u:p" := by decide
    rw [he] at hm
    exact hm

/-- C10: with a non-empty proxies mapping, first-time phantomjs start
unconditionally reads the `https` proxy entry: without an `https` key it
fails with a lookup error before the engine process is created; the
`http` entry is consulted exactly when an `https` key exists mapped to a
falsy (empty) value; and a chosen proxy URI containing no `@` makes the
start fail with an index error. -/
theorem phantomjs_proxy_lookup_spec (headers proxies : List (String × String)) :
    (proxies ≠ [] → proxies.lookup "https" = none →
      (start_phantomjs_browser headers proxies).1 = Except.error PyError.keyError ∧
      StartEvent.createDriver "phantomjs" ∉ (start_phantomjs_browser headers proxies).2) ∧
    (proxies ≠ [] →
      (StartEvent.readProxy "http" ∈ (start_phantomjs_browser headers proxies).2 ↔
        proxies.lookup "https" = some "")) ∧
    (∀ v, proxies.lookup "https" = some v → v ≠ "" → pySplit "@" v = [v] →
      (start_phantomjs_browser headers proxies).1 = Except.error PyError.indexError) := by
  refine ⟨?_, ?_, ?_⟩
  · intro hne hnone
    have hp : proxies.isEmpty = false := isEmpty_false_of_ne_nil hne
    constructor
    · show (phantomjsProxyAndCreate proxies).1 = Except.error PyError.keyError
      unfold phantomjsProxyAndCreate
      simp [hp, hnone]
    · intro hmem
      rcases List.mem_append.mp hmem with hA | hB
      · simp [phantomjsHeaderEvents, List.mem_map, List.mem_filter] at hA
      · unfold phantomjsProxyAndCreate at hB
        simp [hp, hnone] at hB
  · intro hne
    have hp : proxies.isEmpty = false := isEmpty_false_of_ne_nil hne
    have hhead : ∀ v, StartEvent.readProxy "http" ∉ phantomjsHeaderEvents v := by
      intro v hmem
      simp [phantomjsHeaderEvents, List.mem_map, List.mem_filter] at hmem
    constructor
    · intro hmem
      rcases List.mem_append.mp hmem with hA | hB
      · exact absurd hA (hhead headers)
      · unfold phantomjsProxyAndCreate at hB
        rcases hl : proxies.lookup "https" with _ | hv
        · simp [hp, hl] at hB
        · by_cases hv0 : hv = ""
          · rw [hv0]
          · exfalso
            rcases hh : proxies.lookup "http" with _ | v2
            · rcases hs : (pySplit "@" hv)[1]? with _ | addr <;>
                simp [hp, hl, hv0, hh, hs, List.get?_eq_getElem?] at hB
            · rcases hs : (pySplit "@" hv)[1]? with _ | addr <;>
                simp [hp, hl, hv0, hh, hs, List.get?_eq_getElem?] at hB
    · intro hl
      show _ ∈ phantomjsHeaderEvents headers ++ (phantomjsProxyAndCreate proxies).2
      apply List.mem_append_right
      unfold phantomjsProxyAndCreate
      rcases hh : proxies.lookup "http" with _ | v2
      · simp [hp, hl, hh]
      · rcases hs : (pySplit "@" v2)[1]? with _ | addr <;>
          simp [hp, hl, hh, hs, List.get?_eq_getElem?]
  · intro v hl hv0 hsplit
    have hp : proxies.isEmpty = false := isEmpty_false_of_ne_nil (ne_nil_of_lookup_some hl)
    have hget : (pySplit "@" v)[1]? = none := by rw [hsplit]; rfl
    show (phantomjsProxyAndCreate proxies).1 = Except.error PyError.indexError
    unfold phantomjsProxyAndCreate
    simp [hp, hl, hv0, hget, List.get?_eq_getElem?]

/-- Witness for `phantomjs_proxy_lookup_spec`: a proxies dict with only an
`http` key makes the start raise `KeyError`; an empty-string `https` entry
makes the code consult the `http` entry; an `https` proxy URI without `@`
makes the start raise `IndexError`. -/
theorem phantomjs_proxy_lookup_spec_witness :
    (start_phantomjs_browser [] [("http", "http://u:p@h:1")]).1 = Except.error PyError.keyError ∧
    StartEvent.readProxy "http" ∈
      (start_phantomjs_browser [] [("https", ""), ("http", "http://u:p@h:1")]).2 ∧
    (start_phantomjs_browser [] [("https", "http://h:80")]).1 = Except.error PyError.indexError := by
  refine ⟨?_, ?_, ?_⟩
  · exact ((phantomjs_proxy_lookup_spec [] [("http", "http://u:p@h:1")]).1
      (by decide) (by decide)).1
  · exact ((phantomjs_proxy_lookup_spec [] [("https", ""), ("http", "http://u:p@h:1")]).2.1
      (by decide)).mpr (by decide)
  · exact (phantomjs_proxy_lookup_spec [] [("https", "http://h:80")]).2.2
      "http://h:80" (by decide) (by decide) (by decide)

end Requestium
